import Mathlib

/-!
Verification of the collectd network encoder (`collectd_network.py`).

The development shallow-embeds the protocol encoder: the TLV packing
primitives (`pack_numeric`, `pack_string`, `pack_value`, `pack`), the
sample state set up by `Collectd.packet`, and the datagram assembly of
`Collectd.dispatch`.

Modelling conventions:
- A Python 2 byte string is a `List Nat` of byte values; `len` is the
  list length.
- Bytes are `Nat`s; multi-byte integers are laid out explicitly with
  `% 256` arithmetic (`be16`, `be64`, `le64`).
- A Python float sample value is represented by the `Nat` holding its
  IEEE-754 binary64 bit pattern: `struct.pack("<d", v)` emits exactly
  those 64 bits little-endian, which `le64` reproduces.  The mapping
  from a real number to its bit pattern is not modelled (floating
  point), only the byte layout of the bits is.
- Fallible packing returns `Except PackErr (List Nat)`;
  `PackErr.structError` models `struct.error` (a value out of range for
  the format — the specification's `FieldTooLarge`),
  `PackErr.typeError` models `TypeError` (e.g. `len(None)`), and
  `PackErr.assertionError` models the `AssertionError` raised by `pack`
  for an unknown type code.
- `time.time()` is modelled by an integer parameter `now`: CPython 2.7
  truncates the float to an integer when packing it with the `"!q"`
  format, so only `int(time.time())` ever reaches the wire.
-/

/-- A Python value as it occurs in the encoder's dynamically typed
arguments: a byte string, an integer, a float (carried as its IEEE-754
binary64 bit pattern), or `None`. -/
inductive PyVal where
  | str : List Nat → PyVal
  | int : Int → PyVal
  | flt : Nat → PyVal
  | none : PyVal
deriving DecidableEq

/-- The exceptions the encoder can raise: `struct.error` (format range
violation — the specification's `FieldTooLarge`), `TypeError`
(`len` of a non-string such as `None`), and the `AssertionError` raised
by `pack` on an invalid type code. -/
inductive PackErr where
  | structError : PackErr
  | typeError : PackErr
  | assertionError : PackErr
deriving DecidableEq

def TYPE_HOST : Int := 0x0000
def TYPE_TIME : Int := 0x0001
def TYPE_PLUGIN : Int := 0x0002
def TYPE_PLUGIN_INSTANCE : Int := 0x0003
def TYPE_TYPE : Int := 0x0004
def TYPE_TYPE_INSTANCE : Int := 0x0005
def TYPE_VALUES : Int := 0x0006
def TYPE_INTERVAL : Int := 0x0007

def LONG_INT_CODES : List Int := [TYPE_TIME, TYPE_INTERVAL]

def STRING_CODES : List Int :=
  [TYPE_HOST, TYPE_PLUGIN, TYPE_PLUGIN_INSTANCE, TYPE_TYPE, TYPE_TYPE_INSTANCE]

def VALUE_GAUGE : Nat := 1

/-- Big-endian 16-bit layout of `n` (the `"!H"` format), for `n ≤ 65535`. -/
def be16 (n : Nat) : List Nat := [n / 256 % 256, n % 256]

/-- Big-endian 64-bit layout of the bit pattern `u` (the `"!q"` format
applied to the two's-complement bits). -/
def be64 (u : Nat) : List Nat :=
  [u / 2 ^ 56 % 256, u / 2 ^ 48 % 256, u / 2 ^ 40 % 256, u / 2 ^ 32 % 256,
   u / 2 ^ 24 % 256, u / 2 ^ 16 % 256, u / 2 ^ 8 % 256, u % 256]

/-- Little-endian 64-bit layout of the bit pattern `u` (the `"<d"`
format applied to a float's binary64 bits). -/
def le64 (u : Nat) : List Nat :=
  [u % 256, u / 2 ^ 8 % 256, u / 2 ^ 16 % 256, u / 2 ^ 24 % 256,
   u / 2 ^ 32 % 256, u / 2 ^ 40 % 256, u / 2 ^ 48 % 256, u / 2 ^ 56 % 256]

/-- Two's-complement 64-bit bit pattern of the signed integer `n`. -/
def int64bits (n : Int) : Nat := (n % (2 : Int) ^ 64).toNat

/-- `pack_numeric(type_code, number)`:
`struct.pack("!HHq", type_code, 12, number)`.  `struct.error` when the
type code is outside the `"!H"` range or the number outside the `"!q"`
range. -/
def pack_numeric (type_code : Int) (number : Int) : Except PackErr (List Nat) :=
  if type_code < 0 ∨ 65535 < type_code then Except.error PackErr.structError
  else if number < -(2 : Int) ^ 63 ∨ (2 : Int) ^ 63 ≤ number then
    Except.error PackErr.structError
  else Except.ok (be16 type_code.toNat ++ be16 12 ++ be64 (int64bits number))

/-- `pack_string(type_code, string)`:
`struct.pack("!HH", type_code, 5 + len(string)) + string + "\x00"`.
`struct.error` when the type code or the declared length `5 + len`
exceeds the `"!H"` range. -/
def pack_string (type_code : Int) (s : List Nat) : Except PackErr (List Nat) :=
  if type_code < 0 ∨ 65535 < type_code ∨ 65535 < 5 + s.length then
    Except.error PackErr.structError
  else Except.ok (be16 type_code.toNat ++ be16 (5 + s.length) ++ s ++ [0])

/-- `struct.pack("!HHH", a, b, c)` as used for the Values TLV header. -/
def packHHH (a : Int) (b c : Nat) : Except PackErr (List Nat) :=
  if a < 0 ∨ 65535 < a ∨ 65535 < b ∨ 65535 < c then Except.error PackErr.structError
  else Except.ok (be16 a.toNat ++ be16 b ++ be16 c)

/-- The integer-code branch chain of `pack(id, value)` (the `elif` arms
after the `isinstance(id, basestring)` test).  A numeric code packs an
integer with `pack_numeric` (`struct.pack("!q", x)` rejects a
non-integer; the CPython 2.7 deprecation path that truncates an
integral float never arises here because `dispatch` resolves the time
to an integer before packing).  A string code applies `len` to the
value, so a non-string (`None`, a number) raises `TypeError` before any
byte is produced.  Any other code raises `AssertionError`. -/
def packCode (code : Int) (value : PyVal) : Except PackErr (List Nat) :=
  if code ∈ LONG_INT_CODES then
    match value with
    | PyVal.int n => pack_numeric code n
    | _ => Except.error PackErr.structError
  else if code ∈ STRING_CODES then
    match value with
    | PyVal.str s => pack_string code s
    | _ => Except.error PackErr.typeError
  else Except.error PackErr.assertionError

/-- `pack_value(name, value)`: the Type-Instance string field (via
`pack(TYPE_TYPE_INSTANCE, name)`, whose integer-code routing is
`packCode`), then `struct.pack("!HHH", TYPE_VALUES, 15, 1)`, then
`struct.pack("<Bd", VALUE_GAUGE, value)` — one tag byte and the eight
little-endian bytes of the float's bit pattern.  A non-float value in
the `"<d"` slot would need the IEEE-754 conversion of a number to its
bits, which is outside this bit-level model; every sample value in this
development is supplied as a float bit pattern. -/
def pack_value (name : List Nat) (value : PyVal) : Except PackErr (List Nat) := do
  let ti ← packCode TYPE_TYPE_INSTANCE (PyVal.str name)
  let vh ← packHHH TYPE_VALUES 15 1
  let payload ←
    match value with
    | PyVal.flt u => Except.ok (VALUE_GAUGE :: le64 u)
    | _ => Except.error PackErr.structError
  Except.ok (ti ++ vh ++ payload)

/-- `pack(id, value)`: a `basestring` id routes to `pack_value`; an
integer id goes through the `elif` chain (`packCode`).  A float id that
is numerically equal to one of the codes would be treated as that code
by Python's `in`; no caller and no claim exercises a float id, and it
is left outside the model (`None` as an id matches no branch and
raises `AssertionError`, as in the source). -/
def pack (id : PyVal) (value : PyVal) : Except PackErr (List Nat) :=
  match id with
  | PyVal.str name => pack_value name value
  | PyVal.int code => packCode code value
  | PyVal.flt _ => Except.error PackErr.assertionError
  | PyVal.none => Except.error PackErr.assertionError

/-- The sample state a `Collectd` object carries between `packet` and
`dispatch`: the constructor-set `interval` plus the attributes `packet`
assigns.  `values` holds the IEEE-754 bit patterns of the sample
floats. -/
structure Collectd where
  interval : Int
  host : PyVal
  plugin : PyVal
  plugin_instance : PyVal
  plugin_type : PyVal
  type_instance : PyVal
  time : Option Int
  values : List Nat
deriving DecidableEq

/-- `Collectd.packet(...)`: assigns the attributes and nothing else —
no validation of any argument.  Python's defaults are
`host=socket.gethostname()`, `plugin="python"`, `type_instance=""`,
`plugin_instance=None`, `time=None`; all arguments are passed
explicitly here. -/
def Collectd.packet (interval : Int) (plugin_type : PyVal) (values : List Nat)
    (host : PyVal) (plugin : PyVal) (type_instance : PyVal)
    (plugin_instance : PyVal) (time : Option Int) : Collectd :=
  { interval := interval, host := host, plugin := plugin,
    plugin_instance := plugin_instance, plugin_type := plugin_type,
    type_instance := type_instance, time := time, values := values }

/-- The default plugin name `"python"` as bytes. -/
def defaultPlugin : PyVal := PyVal.str [112, 121, 116, 104, 111, 110]

/-- `self.time or time.time()`: Python falsiness — both `None` and `0`
select the current clock `now`. -/
def resolveTime : Option Int → Int → Int
  | Option.none, now => now
  | Option.some t, now => if t = 0 then now else t

/-- The Values TLV that `dispatch` assembles:
`struct.pack("!HHH", TYPE_VALUES, 2+2+2+len(values)*(1+8), len(values))`
followed by one `struct.pack("<B", VALUE_GAUGE)` tag byte per value and
then one `struct.pack("<d", val)` payload per value. -/
def valuesTLV (values : List Nat) : Except PackErr (List Nat) := do
  let vh ← packHHH TYPE_VALUES (2 + 2 + 2 + values.length * (1 + 8)) values.length
  Except.ok (vh ++ values.map (fun _ => VALUE_GAUGE) ++ (values.map le64).flatten)

/-- `Collectd.dispatch()`: packs the six header fields in source order,
then the Type-Instance field and the Values TLV, and concatenates
header and body into the datagram that is handed to `sendto`.  `now`
stands for `int(time.time())`. -/
def Collectd.dispatch (c : Collectd) (now : Int) : Except PackErr (List Nat) := do
  let hostF ← pack (PyVal.int TYPE_HOST) c.host
  let timeF ← pack (PyVal.int TYPE_TIME) (PyVal.int (resolveTime c.time now))
  let pluginF ← pack (PyVal.int TYPE_PLUGIN) c.plugin
  let piF ← pack (PyVal.int TYPE_PLUGIN_INSTANCE) c.plugin_instance
  let typeF ← pack (PyVal.int TYPE_TYPE) c.plugin_type
  let intervalF ← pack (PyVal.int TYPE_INTERVAL) (PyVal.int c.interval)
  let header := hostF ++ timeF ++ pluginF ++ piF ++ typeF ++ intervalF
  let tiF ← pack (PyVal.int TYPE_TYPE_INSTANCE) c.type_instance
  let tlv ← valuesTLV c.values
  Except.ok (header ++ (tiF ++ tlv))

/-- The 16-bit length declared after the type code of an encoded field:
bytes 2 and 3, big-endian. -/
def declaredLength (field : List Nat) : Nat :=
  256 * field.getD 2 0 + field.getD 3 0

/-- Reference reverse parser for string fields, following the
specification's test-only `decode_string`: reads the big-endian type
code and length, requires a single trailing NUL, requires the declared
length to be `5 +` the text length, and rejects text with an embedded
NUL. -/
def decode_string (b : List Nat) : Option (Int × List Nat) :=
  match b with
  | t1 :: t0 :: l1 :: l0 :: rest =>
    if rest.getLast? = Option.some 0 ∧ 256 * l1 + l0 = 5 + rest.dropLast.length ∧
        ¬ 0 ∈ rest.dropLast then
      Option.some (Int.ofNat (256 * t1 + t0), rest.dropLast)
    else Option.none
  | _ => Option.none

theorem pack_int_code (c : Int) (v : PyVal) : pack (PyVal.int c) v = packCode c v := rfl

deriving instance DecidableEq for Except

theorem bindOkEq {ε α β : Type} (a : α) (f : α → Except ε β) :
    (Except.ok a : Except ε α) >>= f = f a := rfl

theorem bindErrEq {ε α β : Type} (e : ε) (f : α → Except ε β) :
    (Except.error e : Except ε α) >>= f = Except.error e := rfl

theorem be16_decode (L : Nat) (h : L ≤ 65535) : 256 * (L / 256 % 256) + L % 256 = L := by
  have h1 : L / 256 ≤ 255 := by omega
  have h2 : L / 256 % 256 = L / 256 := Nat.mod_eq_of_lt (by omega)
  rw [h2]
  omega

theorem le64_flatten_length (vs : List Nat) :
    ((vs.map le64).flatten).length = 8 * vs.length := by
  induction vs with
  | nil => simp
  | cons v t ih =>
    simp only [List.map_cons, List.flatten_cons, List.length_append, ih, le64,
      List.length_cons, List.length_nil]
    omega

theorem map_gauge_replicate (vs : List Nat) :
    vs.map (fun _ => VALUE_GAUGE) = List.replicate vs.length 1 := by
  induction vs with
  | nil => rfl
  | cons v t ih => simp [List.replicate_succ, ih, VALUE_GAUGE]

/-- C1, counterexample: `pack_numeric` for the Time code declares length
12, but only 8 bytes (the int64 value) follow the length field — the
declared length counts the 4-byte type/length header as well, so the
claim as stated fails on the very first numeric field. -/
theorem claim_C1_counterexample :
    pack_numeric TYPE_TIME 0 = Except.ok [0, 1, 0, 12, 0, 0, 0, 0, 0, 0, 0, 0] ∧
    declaredLength [0, 1, 0, 12, 0, 0, 0, 0, 0, 0, 0, 0] = 12 ∧
    (([0, 1, 0, 12, 0, 0, 0, 0, 0, 0, 0, 0] : List Nat).drop 4).length = 8 ∧
    declaredLength [0, 1, 0, 12, 0, 0, 0, 0, 0, 0, 0, 0] ≠
      (([0, 1, 0, 12, 0, 0, 0, 0, 0, 0, 0, 0] : List Nat).drop 4).length := by
  decide

/-- C1 (amended): for every field emitted by `pack_numeric`,
`pack_string`, and the Values TLV built in `dispatch`, the 16-bit
declared length written after the type code equals the TOTAL byte
length of the encoded field — the 4 type/length header bytes plus the
bytes that follow the length field. -/
theorem claim_C1_amended :
    (∀ (tc n : Int) (out : List Nat), pack_numeric tc n = Except.ok out →
      declaredLength out = out.length ∧ out.length = 4 + (out.drop 4).length) ∧
    (∀ (tc : Int) (s out : List Nat), pack_string tc s = Except.ok out →
      declaredLength out = out.length ∧ out.length = 4 + (out.drop 4).length) ∧
    (∀ (vs out : List Nat), valuesTLV vs = Except.ok out →
      declaredLength out = out.length ∧ out.length = 4 + (out.drop 4).length) := by
  refine ⟨?_, ?_, ?_⟩
  · intro tc n out h
    rw [pack_numeric] at h
    split_ifs at h with h1 h2
    injection h with h
    subst h
    simp [declaredLength, be16, be64]
  · intro tc s out h
    rw [pack_string] at h
    split_ifs at h with h1
    push_neg at h1
    injection h with h
    subst h
    have hd := be16_decode (5 + s.length) (by omega)
    constructor
    · simp only [declaredLength, be16, List.cons_append, List.nil_append,
        List.getD_cons_succ, List.getD_cons_zero, List.length_append,
        List.length_cons, List.length_nil]
      omega
    · simp only [be16, List.cons_append, List.nil_append, List.drop_succ_cons,
        List.drop_zero, List.length_append, List.length_cons, List.length_nil]
      omega
  · intro vs out h
    rw [valuesTLV] at h
    rcases hvh : packHHH TYPE_VALUES (2 + 2 + 2 + vs.length * (1 + 8)) vs.length with e | vh
    case error => rw [hvh, bindErrEq] at h; simp at h
    rw [hvh, bindOkEq] at h
    injection h with h
    subst h
    rw [packHHH] at hvh
    split_ifs at hvh with h1
    push_neg at h1
    injection hvh with hvh
    subst hvh
    have hd := be16_decode (2 + 2 + 2 + vs.length * (1 + 8)) (by omega)
    have hf := le64_flatten_length vs
    constructor
    · simp only [declaredLength, be16, List.cons_append, List.nil_append,
        List.getD_cons_succ, List.getD_cons_zero, List.length_append,
        List.length_cons, List.length_nil, List.length_map, hf]
      omega
    · simp only [be16, List.cons_append, List.nil_append, List.drop_succ_cons,
        List.drop_zero, List.length_append, List.length_cons, List.length_nil,
        List.length_map, hf]
      omega

/-- C1, witness: the amended invariant evaluated at one numeric field,
one string field, and one Values TLV. -/
theorem claim_C1_witness :
    (declaredLength [0, 1, 0, 12, 0, 0, 0, 0, 0, 0, 0, 5] =
        ([0, 1, 0, 12, 0, 0, 0, 0, 0, 0, 0, 5] : List Nat).length ∧
      ([0, 1, 0, 12, 0, 0, 0, 0, 0, 0, 0, 5] : List Nat).length =
        4 + (([0, 1, 0, 12, 0, 0, 0, 0, 0, 0, 0, 5] : List Nat).drop 4).length) ∧
    (declaredLength [0, 0, 0, 6, 104, 0] = ([0, 0, 0, 6, 104, 0] : List Nat).length ∧
      ([0, 0, 0, 6, 104, 0] : List Nat).length =
        4 + (([0, 0, 0, 6, 104, 0] : List Nat).drop 4).length) ∧
    (declaredLength [0, 6, 0, 15, 0, 1, 1, 0, 0, 0, 0, 0, 0, 0, 0] =
        ([0, 6, 0, 15, 0, 1, 1, 0, 0, 0, 0, 0, 0, 0, 0] : List Nat).length ∧
      ([0, 6, 0, 15, 0, 1, 1, 0, 0, 0, 0, 0, 0, 0, 0] : List Nat).length =
        4 + (([0, 6, 0, 15, 0, 1, 1, 0, 0, 0, 0, 0, 0, 0, 0] : List Nat).drop 4).length) :=
  ⟨claim_C1_amended.1 TYPE_TIME 5 _ (by decide),
   claim_C1_amended.2.1 TYPE_HOST [104] _ (by decide),
   claim_C1_amended.2.2 [0] _ (by decide)⟩

/-- C2: for every value list of `n` values, the Values TLV assembled at
dispatch declares length `6 + 9*n` and count `n`, both big-endian
16-bit (as is the type code `0x0006`), and the bytes after the count
are exactly `n` single tag bytes equal to 1 (Gauge) followed by the `n`
8-byte little-endian double payloads; the dispatch loop offers no other
value kind. -/
theorem claim_C2 (vs out : List Nat) (h : valuesTLV vs = Except.ok out) :
    out = be16 6 ++ be16 (6 + 9 * vs.length) ++ be16 vs.length ++
      List.replicate vs.length 1 ++ (vs.map le64).flatten ∧
    declaredLength out = 6 + 9 * vs.length ∧
    ((vs.map le64).flatten).length = 8 * vs.length ∧
    ∀ u, (le64 u).length = 8 := by
  rw [valuesTLV] at h
  rcases hvh : packHHH TYPE_VALUES (2 + 2 + 2 + vs.length * (1 + 8)) vs.length with e | vh
  case error => rw [hvh, bindErrEq] at h; simp at h
  rw [hvh, bindOkEq] at h
  injection h with h
  subst h
  rw [packHHH] at hvh
  split_ifs at hvh with h1
  push_neg at h1
  injection hvh with hvh
  subst hvh
  have hd := be16_decode (2 + 2 + 2 + vs.length * (1 + 8)) (by omega)
  refine ⟨?_, ?_, le64_flatten_length vs, fun u => rfl⟩
  · rw [map_gauge_replicate]
    have h9 : 2 + 2 + 2 + vs.length * (1 + 8) = 6 + 9 * vs.length := by omega
    rw [h9]
    rfl
  · simp only [declaredLength, be16, List.cons_append, List.nil_append,
      List.getD_cons_succ, List.getD_cons_zero]
    omega

/-- C2, witness: the Values TLV for a single value with bit pattern 0
is `[0,6, 0,15, 0,1, 1, 0,0,0,0,0,0,0,0]`. -/
theorem claim_C2_witness :
    ([0, 6, 0, 15, 0, 1, 1, 0, 0, 0, 0, 0, 0, 0, 0] : List Nat) =
      be16 6 ++ be16 (6 + 9 * [(0 : Nat)].length) ++ be16 [(0 : Nat)].length ++
        List.replicate [(0 : Nat)].length 1 ++ ([(0 : Nat)].map le64).flatten ∧
    declaredLength [0, 6, 0, 15, 0, 1, 1, 0, 0, 0, 0, 0, 0, 0, 0] =
      6 + 9 * [(0 : Nat)].length ∧
    (([(0 : Nat)].map le64).flatten).length = 8 * [(0 : Nat)].length ∧
    ∀ u, (le64 u).length = 8 :=
  claim_C2 [0] _ (by decide)

/-- C3: the spec says a Sample constructed without a plugin instance
(default `None`) serializes with an empty Plugin-Instance string field;
the code instead reaches `len(None)` inside `pack_string` via
`pack(TYPE_PLUGIN_INSTANCE, self.plugin_instance)` and raises
`TypeError`, so dispatch never produces a datagram for the
constructor's own default. -/
theorem claim_C3_code_bug :
    Collectd.dispatch
      (Collectd.packet 30 (PyVal.str [116]) [0] (PyVal.str [104]) defaultPlugin
        (PyVal.str []) PyVal.none (Option.some 5)) 5 =
      Except.error PackErr.typeError := by
  decide

/-- C4: for the Time and Interval codes and every signed 64-bit integer
`v`, `pack_numeric` emits exactly 12 bytes: big-endian uint16 type
code, big-endian uint16 length 12, and the big-endian two's-complement
int64 value. -/
theorem claim_C4 (tc v : Int) (htc : tc ∈ LONG_INT_CODES)
    (hlo : -(2 : Int) ^ 63 ≤ v) (hhi : v < (2 : Int) ^ 63) :
    pack_numeric tc v = Except.ok (be16 tc.toNat ++ be16 12 ++ be64 (int64bits v)) ∧
    (be16 tc.toNat ++ be16 12 ++ be64 (int64bits v)).length = 12 := by
  have hc : tc = TYPE_TIME ∨ tc = TYPE_INTERVAL := by
    simpa [LONG_INT_CODES] using htc
  have h04 : ¬ (tc < 0 ∨ 65535 < tc) := by
    rcases hc with hc | hc <;> rw [hc] <;> decide
  have h05 : ¬ (v < -(2 : Int) ^ 63 ∨ (2 : Int) ^ 63 ≤ v) := by
    push_neg
    exact ⟨hlo, hhi⟩
  rw [pack_numeric, if_neg h04, if_neg h05]
  exact ⟨rfl, by simp [be16, be64]⟩

/-- C4, witness: `pack_numeric` at the Time code and value `-1`. -/
theorem claim_C4_witness :
    pack_numeric TYPE_TIME (-1) =
      Except.ok (be16 (TYPE_TIME).toNat ++ be16 12 ++ be64 (int64bits (-1))) ∧
    (be16 (TYPE_TIME).toNat ++ be16 12 ++ be64 (int64bits (-1))).length = 12 :=
  claim_C4 TYPE_TIME (-1) (by decide) (by decide) (by decide)

/-- C5: for every string-typed code and every NUL-free string, the
reference reverse parser `decode_string` recovers exactly the code and
the text from the bytes `pack_string` returns; the output ends in a
single NUL terminator and the declared length equals `5 +` the byte
length of the text. -/
theorem claim_C5 (tc : Int) (s out : List Nat) (htc : tc ∈ STRING_CODES)
    (hnul : ¬ 0 ∈ s) (h : pack_string tc s = Except.ok out) :
    decode_string out = Option.some (tc, s) ∧
    out.getLast? = Option.some 0 ∧
    declaredLength out = 5 + s.length := by
  rw [pack_string] at h
  split_ifs at h with h1
  push_neg at h1
  obtain ⟨h2, h3, h4⟩ := h1
  injection h with h
  subst h
  have hd := be16_decode (5 + s.length) (by omega)
  have htn : tc.toNat ≤ 65535 := by omega
  have htdec : 256 * (tc.toNat / 256 % 256) + tc.toNat % 256 = tc.toNat :=
    be16_decode tc.toNat htn
  refine ⟨?_, ?_, ?_⟩
  · have hcond : (s ++ [0]).getLast? = Option.some 0 ∧
        256 * ((5 + s.length) / 256 % 256) + (5 + s.length) % 256 =
          5 + (s ++ [0]).dropLast.length ∧
        ¬ 0 ∈ (s ++ [0]).dropLast := by
      rw [List.getLast?_concat, List.dropLast_concat]
      exact ⟨rfl, by omega, hnul⟩
    have htc2 : Int.ofNat tc.toNat = tc := by
      rw [Int.ofNat_eq_coe, Int.toNat_of_nonneg h2]
    simp only [be16, List.cons_append, List.nil_append, decode_string]
    rw [if_pos hcond, List.dropLast_concat, htdec, htc2]
  · have hassoc : be16 tc.toNat ++ be16 (5 + s.length) ++ s ++ [0] =
        (be16 tc.toNat ++ be16 (5 + s.length) ++ s) ++ [0] := by
      simp [List.append_assoc]
    rw [hassoc, List.getLast?_concat]
  · simp only [declaredLength, be16, List.cons_append, List.nil_append,
      List.getD_cons_succ, List.getD_cons_zero]
    omega

/-- C5, witness: round trip of the Host code with the one-byte string
`"h"`. -/
theorem claim_C5_witness :
    decode_string [0, 0, 0, 6, 104, 0] = Option.some (TYPE_HOST, [104]) ∧
    ([0, 0, 0, 6, 104, 0] : List Nat).getLast? = Option.some 0 ∧
    declaredLength [0, 0, 0, 6, 104, 0] = 5 + [(104 : Nat)].length :=
  claim_C5 TYPE_HOST [104] [0, 0, 0, 6, 104, 0] (by decide) (by decide) (by decide)

set_option maxRecDepth 10000 in
/-- C6: whenever `dispatch` assembles a datagram, the datagram is
exactly the concatenation, in this fixed order, of the encoded Host,
Time (resolved against the clock), Plugin, Plugin Instance, Type and
Interval fields, then the Type Instance string field and the Values
TLV — nothing wraps the body. -/
theorem claim_C6 (c : Collectd) (now : Int)
    (hostF timeF pluginF piF typeF intervalF tiF tlv : List Nat)
    (h1 : pack (PyVal.int TYPE_HOST) c.host = Except.ok hostF)
    (h2 : pack (PyVal.int TYPE_TIME) (PyVal.int (resolveTime c.time now)) =
      Except.ok timeF)
    (h3 : pack (PyVal.int TYPE_PLUGIN) c.plugin = Except.ok pluginF)
    (h4 : pack (PyVal.int TYPE_PLUGIN_INSTANCE) c.plugin_instance = Except.ok piF)
    (h5 : pack (PyVal.int TYPE_TYPE) c.plugin_type = Except.ok typeF)
    (h6 : pack (PyVal.int TYPE_INTERVAL) (PyVal.int c.interval) = Except.ok intervalF)
    (h7 : pack (PyVal.int TYPE_TYPE_INSTANCE) c.type_instance = Except.ok tiF)
    (h8 : valuesTLV c.values = Except.ok tlv) :
    Collectd.dispatch c now =
      Except.ok (hostF ++ (timeF ++ (pluginF ++ (piF ++ (typeF ++ (intervalF ++
        (tiF ++ tlv))))))) := by
  rw [Collectd.dispatch, h1, bindOkEq, h2, bindOkEq, h3, bindOkEq, h4, bindOkEq,
    h5, bindOkEq, h6, bindOkEq, h7, bindOkEq, h8, bindOkEq]
  simp only [List.append_assoc]

/-- C6, witness: a fully explicit sample assembled field by field. -/
theorem claim_C6_witness :
    Collectd.dispatch
      { interval := 30, host := PyVal.str [104], plugin := PyVal.str [112],
        plugin_instance := PyVal.str [], plugin_type := PyVal.str [116],
        type_instance := PyVal.str [105], time := Option.some 2, values := [0] } 9 =
      Except.ok ([0, 0, 0, 6, 104, 0] ++ ([0, 1, 0, 12, 0, 0, 0, 0, 0, 0, 0, 2] ++
        ([0, 2, 0, 6, 112, 0] ++ ([0, 3, 0, 5, 0] ++ ([0, 4, 0, 6, 116, 0] ++
        ([0, 7, 0, 12, 0, 0, 0, 0, 0, 0, 0, 30] ++ ([0, 5, 0, 6, 105, 0] ++
        [0, 6, 0, 15, 0, 1, 1, 0, 0, 0, 0, 0, 0, 0, 0]))))))) :=
  claim_C6 _ 9 _ _ _ _ _ _ _ _ (by decide) (by decide) (by decide) (by decide)
    (by decide) (by decide) (by decide) (by decide)

/-- C7, counterexample: `packet` rejects nothing — constructing with an
empty values sequence AND an empty type name succeeds, and `dispatch`
silently sends the protocol-invalid empty Values TLV
`[0,6,0,6,0,0]` (declared length 6, count 0) at the end of the
datagram. -/
theorem claim_C7_counterexample :
    Collectd.packet 10 (PyVal.str []) [] (PyVal.str [104]) (PyVal.str [112])
        (PyVal.str []) (PyVal.str []) (Option.some 1) =
      { interval := 10, host := PyVal.str [104], plugin := PyVal.str [112],
        plugin_instance := PyVal.str [], plugin_type := PyVal.str [],
        type_instance := PyVal.str [], time := Option.some 1, values := [] } ∧
    Collectd.dispatch
      (Collectd.packet 10 (PyVal.str []) [] (PyVal.str [104]) (PyVal.str [112])
        (PyVal.str []) (PyVal.str []) (Option.some 1)) 1 =
      Except.ok [0, 0, 0, 6, 104, 0,
        0, 1, 0, 12, 0, 0, 0, 0, 0, 0, 0, 1,
        0, 2, 0, 6, 112, 0,
        0, 3, 0, 5, 0,
        0, 4, 0, 5, 0,
        0, 7, 0, 12, 0, 0, 0, 0, 0, 0, 0, 10,
        0, 5, 0, 5, 0,
        0, 6, 0, 6, 0, 0] := by
  decide

/-- C7 (amended): Sample construction performs no validation at all —
an empty values sequence and an empty type name are both accepted and
stored unchanged, and the empty value list is encoded (not rejected) as
a Values TLV with declared length 6 and count 0. -/
theorem claim_C7_amended :
    (∀ (iv : Int) (pt : PyVal) (h p ti pi : PyVal) (t : Option Int),
      (Collectd.packet iv pt [] h p ti pi t).values = [] ∧
      (Collectd.packet iv pt [] h p ti pi t).plugin_type = pt) ∧
    valuesTLV [] = Except.ok [0, 6, 0, 6, 0, 0] :=
  ⟨fun iv pt h p ti pi t => ⟨rfl, rfl⟩, by decide⟩

/-- C8: a string whose encoded length `5 + len` would exceed 65535
makes `pack_string` fail with the range error of the 16-bit length
format (`struct.error`, the specification's `FieldTooLarge`) — no bytes
are produced, so nothing is truncated and no length wraps modulo
2^16. -/
theorem claim_C8 (tc : Int) (s : List Nat) (h1 : 0 ≤ tc) (h2 : tc ≤ 65535)
    (h3 : 65535 < 5 + s.length) :
    pack_string tc s = Except.error PackErr.structError := by
  rw [pack_string, if_pos (Or.inr (Or.inr h3))]

/-- C8, witness: a 65531-byte string overflows the length field and is
rejected. -/
theorem claim_C8_witness :
    pack_string TYPE_HOST (List.replicate 65531 104) = Except.error PackErr.structError :=
  claim_C8 TYPE_HOST (List.replicate 65531 104) (by decide) (by decide)
    (by rw [List.length_replicate]; norm_num)

/-- C9: a timestamp of 0, exactly like an unset (`None`) timestamp, is
replaced by the current clock at encode time — the test
`self.time or time.time()` is a falsiness test — so dispatching such a
sample is indistinguishable from dispatching one stamped with `now`. -/
theorem claim_C9 (c : Collectd) (now : Int)
    (h : c.time = Option.some 0 ∨ c.time = Option.none) :
    resolveTime c.time now = now ∧
    Collectd.dispatch c now =
      Collectd.dispatch { c with time := Option.some now } now := by
  have hr : resolveTime c.time now = now := by
    rcases h with h | h <;> rw [h] <;> simp [resolveTime]
  have hr2 : resolveTime (Option.some now) now = now := by
    simp [resolveTime]
  refine ⟨hr, ?_⟩
  simp only [Collectd.dispatch]
  rw [hr, hr2]

/-- C9, witness: an explicit timestamp of 0 dispatches as clock time
7. -/
theorem claim_C9_witness :
    resolveTime (Option.some 0) 7 = 7 ∧
    Collectd.dispatch
      { interval := 30, host := PyVal.str [104], plugin := PyVal.str [112],
        plugin_instance := PyVal.str [], plugin_type := PyVal.str [116],
        type_instance := PyVal.str [], time := Option.some 0, values := [0] } 7 =
    Collectd.dispatch
      { interval := 30, host := PyVal.str [104], plugin := PyVal.str [112],
        plugin_instance := PyVal.str [], plugin_type := PyVal.str [116],
        type_instance := PyVal.str [], time := Option.some 7, values := [0] } 7 :=
  claim_C9
    { interval := 30, host := PyVal.str [104], plugin := PyVal.str [112],
      plugin_instance := PyVal.str [], plugin_type := PyVal.str [116],
      type_instance := PyVal.str [], time := Option.some 0, values := [0] } 7
    (Or.inl rfl)

/-- C10: a string id always routes `pack` to `pack_value`; when that
succeeds the result is the Type Instance string field followed by a
Values TLV declaring length 15 and count 1 with a single Gauge tag and
one little-endian double; every integer id outside the seven
string/numeric codes — including the Values code 0x0006 — raises
`AssertionError` instead of returning bytes. -/
theorem claim_C10 :
    (∀ (name : List Nat) (v : PyVal), pack (PyVal.str name) v = pack_value name v) ∧
    (∀ (name : List Nat) (u : Nat) (out : List Nat),
      pack (PyVal.str name) (PyVal.flt u) = Except.ok out →
      out = be16 5 ++ be16 (5 + name.length) ++ name ++ [0] ++
        ([0, 6, 0, 15, 0, 1] ++ (1 :: le64 u))) ∧
    (∀ (code : Int), ¬ code ∈ LONG_INT_CODES → ¬ code ∈ STRING_CODES →
      ∀ (v : PyVal), pack (PyVal.int code) v = Except.error PackErr.assertionError) := by
  refine ⟨fun name v => rfl, ?_, ?_⟩
  · intro name u out h
    have hpc : packCode TYPE_TYPE_INSTANCE (PyVal.str name) =
        pack_string TYPE_TYPE_INSTANCE name := by
      rw [packCode, if_neg (by decide), if_pos (by decide)]
    have h2 : pack_value name (PyVal.flt u) = Except.ok out := h
    rcases hti : pack_string TYPE_TYPE_INSTANCE name with e | ti
    · rw [pack_value, hpc, hti, bindErrEq] at h2
      simp at h2
    · rw [pack_value, hpc, hti, bindOkEq] at h2
      have h3 : Except.ok ((ti ++ [0, 6, 0, 15, 0, 1]) ++ (1 :: le64 u)) =
          Except.ok out := h2
      injection h3 with h3
      rw [pack_string] at hti
      split_ifs at hti with hc
      injection hti with hti
      subst hti
      rw [← h3]
      simp [List.append_assoc, TYPE_TYPE_INSTANCE]
  · intro code hl hs v
    rw [pack_int_code, packCode.eq_def, if_neg hl, if_neg hs]

/-- C10, witness: the string id `"t"` with the double of bit pattern 3,
and the Values code 0x0006 used as an integer id. -/
theorem claim_C10_witness :
    pack (PyVal.str [116]) (PyVal.flt 3) = pack_value [116] (PyVal.flt 3) ∧
    ([0, 5, 0, 6, 116, 0] ++ ([0, 6, 0, 15, 0, 1] ++ (1 :: le64 3)) : List Nat) =
      be16 5 ++ be16 (5 + [(116 : Nat)].length) ++ [116] ++ [0] ++
        ([0, 6, 0, 15, 0, 1] ++ (1 :: le64 3)) ∧
    pack (PyVal.int TYPE_VALUES) (PyVal.flt 3) = Except.error PackErr.assertionError :=
  ⟨claim_C10.1 [116] (PyVal.flt 3),
   claim_C10.2.1 [116] 3 _ (by decide),
   claim_C10.2.2 TYPE_VALUES (by decide) (by decide) (PyVal.flt 3)⟩
